import Mathlib

/-!
Shallow embedding of `src/js/helpers.js` from the SAS Powerschool
Enhancement Suite: grade conversion tables, GPA aggregation, credit-hour
weighting, final-percent extraction from page html, assignment extraction
from a parsed table, and the local-storage save/load pair.

JavaScript numbers appearing in the grade tables and GPA arithmetic are
modelled as rationals (every constant involved is an exact binary
fraction, so rational arithmetic coincides with IEEE double arithmetic on
every value these functions manipulate, except where noted for `toFixed`).
JavaScript values that can be `NaN` or `±Infinity` (the final-percent
path) are modelled by the inductive `JsNum`.
-/

namespace Saspes

/-- The `grade_gpa` table object (helpers.js lines 32-42): letter grade to
SAS grade point value. -/
def grade_gpa : List (String × ℚ) :=
  [("A+", 4.5), ("A", 4.0), ("B+", 3.5), ("B", 3.0), ("C+", 2.5),
   ("C", 2.0), ("D+", 1.5), ("D", 1.0), ("F", 0.0)]

/-- The property names a plain object literal inherits from
`Object.prototype`, all of which the JavaScript `in` operator reports as
present because `in` walks the prototype chain. -/
def objectPrototypeKeys : List String :=
  ["constructor", "hasOwnProperty", "isPrototypeOf", "propertyIsEnumerable",
   "toLocaleString", "toString", "valueOf", "__proto__", "__defineGetter__",
   "__defineSetter__", "__lookupGetter__", "__lookupSetter__"]

/-- What `table[grade]` yields under the `grade in table` guard: an own
numeric entry (or the `-1` sentinel from the `else` branch), or a member
inherited from `Object.prototype` — a function, or for `__proto__` the
prototype object itself — which is in particular not a number and not
`-1`. -/
inductive TableValue where
  | num (q : ℚ)
  | inherited
deriving DecidableEq, Repr

/-- Embeds `gradeToGPA` (helpers.js lines 49-54): the `grade in grade_gpa`
test walks the prototype chain, so an own key of the table returns its
entry, an `Object.prototype` member name returns the inherited member,
and every other string returns `-1`. -/
def gradeToGPA (grade : String) : TableValue :=
  match grade_gpa.lookup grade with
  | some v => .num v
  | none => if grade ∈ objectPrototypeKeys then .inherited else .num (-1)

/-- The `grade_fp` table object (helpers.js lines 56-66): letter grade to
final-percent floor. -/
def grade_fp : List (String × ℚ) :=
  [("A+", 90), ("A", 80), ("B+", 70), ("B", 60), ("C+", 50),
   ("C", 40), ("D+", 30), ("D", 20), ("F", 10)]

/-- Embeds `gradeToFP` (helpers.js lines 73-78), with the same
prototype-chain behaviour of `grade in grade_fp` as `gradeToGPA`. -/
def gradeToFP (grade : String) : TableValue :=
  match grade_fp.lookup grade with
  | some v => .num v
  | none => if grade ∈ objectPrototypeKeys then .inherited else .num (-1)

/-- The `avaliableGrades` array (helpers.js line 80), spelling kept from the
source. -/
def avaliableGrades : List String :=
  ["A+", "A", "B+", "B", "C+", "C", "D+", "D", "F"]

/-- Embeds `calculate_credit_hours` (helpers.js lines 129-138).  The regex
`/^(I Service: |IS: )/` is embedded as the disjunction of the two
literal-prefix tests. -/
def calculate_credit_hours (course_name : String) : ℚ :=
  let double_effect_courses := ["English 10/American History", "English 9/World History"]
  if double_effect_courses.contains course_name then 2
  else if course_name.startsWith "I Service: " || course_name.startsWith "IS: " then 0.5
  else 1

/-- The JavaScript `<` comparison of a table lookup result against a
numeric constant, as in `gradeToGPA(grade) < 1.8`: an inherited
`Object.prototype` member coerces through its string form to `NaN` (none
of those strings is numeric), and every comparison against `NaN` is
false. -/
def tvLt (v : TableValue) (c : ℚ) : Bool :=
  match v with
  | .num q => decide (q < c)
  | .inherited => false

/-- Embeds the inner function `course_boost` of `calculate_gpa`
(helpers.js lines 118-126).  The regex `/^(AP |AT )/` is embedded as the
disjunction of the two literal-prefix tests. -/
def course_boost (course_name : String) (grade : String) : ℚ :=
  if tvLt (gradeToGPA grade) 1.8 then 0
  else if course_name.startsWith "AP " || course_name.startsWith "AT " then 0.5
  else 0

/-- Assignment status flags.  Modelled from the spec: the `Assignment`
model class (`src/js/models/Assignment`) is not part of the given source;
the spec data model lists a status set whose only flag is MISSING. -/
inductive AssignmentStatus where
  | MISSING
deriving DecidableEq, Repr

/-- Modelled from the spec: the `Assignment` entity
(`src/js/models/Assignment` is not part of the given source) —
`{ name: string, score: string (raw), order: integer index, status: set of flags }`. -/
structure Assignment where
  name : String
  score : String
  order : ℕ
  statuses : List AssignmentStatus
deriving DecidableEq, Repr

/-- Modelled from the spec: the `Course` entity (`src/js/models/Course` is
not part of the given source) — `{ name, link, grade, finalPercent,
assignments }`, `finalPercent` possibly absent. -/
structure Course where
  name : String
  link : String
  grade : String
  finalPercent : Option ℚ
  assignments : List Assignment
deriving DecidableEq, Repr

/-- Embeds `Number.prototype.toFixed(2)` on an exact rational input: the
integer `n` minimising `|n / 100 - x|`, ties to the larger `n`
(ECMA-262 Number.prototype.toFixed step 10), printed with exactly two
digits after the point.  (On an actual double the argument has already
been rounded to binary, which this exact-rational model elides; every
value reached by `calculate_gpa` in the claims is an exact binary
fraction, where the two agree.) -/
def toFixed2 (q : ℚ) : String :=
  let n : ℤ := ⌊q * 100 + 1 / 2⌋
  let m : ℕ := n.natAbs
  (if n < 0 then "-" else "")
    ++ toString (m / 100) ++ "."
    ++ (if m % 100 < 10 then "0" else "") ++ toString (m % 100)

/-- A JavaScript number: `NaN`, `-Infinity`, `Infinity`, or a finite
value. -/
inductive JsNum where
  | nan
  | negInf
  | posInf
  | num (q : ℚ)
deriving DecidableEq, Repr

/-- Embeds JavaScript numeric `+` on two numbers: `NaN` absorbs, opposite
infinities give `NaN`, and finite values add exactly. -/
def jsAdd : JsNum → JsNum → JsNum
  | .nan, _ => .nan
  | _, .nan => .nan
  | .posInf, .negInf => .nan
  | .negInf, .posInf => .nan
  | .posInf, _ => .posInf
  | _, .posInf => .posInf
  | .negInf, _ => .negInf
  | _, .negInf => .negInf
  | .num x, .num y => .num (x + y)

/-- Embeds JavaScript `/` with a finite divisor: `NaN` absorbs, an
infinite dividend keeps its (sign-adjusted) infinity, a zero divisor
gives an infinity or `NaN`, and otherwise the exact quotient. -/
def jsDiv (a : JsNum) (d : ℚ) : JsNum :=
  match a with
  | .nan => .nan
  | .posInf => if d < 0 then .negInf else .posInf
  | .negInf => if d < 0 then .posInf else .negInf
  | .num x =>
    if d = 0 then (if x = 0 then .nan else if 0 < x then .posInf else .negInf)
    else .num (x / d)

/-- Embeds `Number.prototype.toFixed(2)` on a full JavaScript number:
`"NaN"` for `NaN`, the infinity strings for infinities (ECMA-262
Number.prototype.toFixed steps 8-9), and the two-decimal rounding of
`toFixed2` on finite values. -/
def toFixed2Js : JsNum → String
  | .nan => "NaN"
  | .posInf => "Infinity"
  | .negInf => "-Infinity"
  | .num q => toFixed2 q

/-- The `!== -1` test of the `calculate_gpa` loop on a table lookup
result: an inherited `Object.prototype` member is not `-1`, so such a
course is included. -/
def isNotMinusOne : TableValue → Bool
  | .num q => decide (q ≠ -1)
  | .inherited => true

/-- The term `multiplier * (gradeToGPA(grade) + course_boost(name, grade))`
added to `sum` by the loop: for an inherited `Object.prototype` member
the inner `+` concatenates into a non-numeric string (such as
`"function toString() ..."` followed by the boost), so the multiplication
yields `NaN`. -/
def gpaContribution (c : Course) : JsNum :=
  match gradeToGPA c.grade with
  | .num g => .num (calculate_credit_hours c.name * (g + course_boost c.name c.grade))
  | .inherited => .nan

/-- The loop body state of `calculate_gpa`: `(courses_with_grades, sum)`;
`sum` is a full JavaScript number because an included course with an
inherited table value turns it into `NaN`. -/
def gpaStep (acc : ℚ × JsNum) (c : Course) : ℚ × JsNum :=
  if isNotMinusOne (gradeToGPA c.grade) then
    (acc.1 + calculate_credit_hours c.name, jsAdd acc.2 (gpaContribution c))
  else acc

/-- Embeds `calculate_gpa` (helpers.js lines 103-127): the `for` loop
accumulating `courses_with_grades` and `sum`, then the zero-denominator
guard and `toFixed(2)` formatting. -/
def calculate_gpa (courses : List Course) : String :=
  let acc := courses.foldl gpaStep (0, JsNum.num 0)
  if acc.1 = 0 then "0.00"
  else toFixed2Js (jsDiv acc.2 acc.1)

/-- Claim-side restatement of the GPA denominator: total credit-hour
weight over the courses passing the `!== -1` test. -/
def gpaDenominator (courses : List Course) : ℚ :=
  ((courses.filter (fun c => isNotMinusOne (gradeToGPA c.grade))).map
    (fun c => calculate_credit_hours c.name)).sum

/-- Claim-side restatement of the GPA numerator: JavaScript sum of the
weighted (GPA value + boost) contributions over the courses passing the
`!== -1` test. -/
def gpaNumerator (courses : List Course) : JsNum :=
  ((courses.filter (fun c => isNotMinusOne (gradeToGPA c.grade))).map
    gpaContribution).foldl jsAdd (JsNum.num 0)

/-! ### Band table and `fpToGrade` -/

/-- The `fprange` table object (helpers.js lines 82-92) with each string key
`"lo-hi"` parsed into its numeric bounds. -/
def fprange : List ((ℚ × ℚ) × String) :=
  [((85, 90), "A+"), ((75, 85), "A"), ((65, 75), "B+"), ((55, 65), "B"),
   ((45, 55), "C+"), ((35, 45), "C"), ((25, 35), "D+"), ((15, 25), "D"),
   ((0, 15), "F")]

/-- Modelled from the spec: the external `get-key-range` npm utility used by
`fpToGrade` (helpers.js line 30) is not part of the given source; per the
spec it maps a value to the entry of the half-open band `[lower, upper)`
containing it, and to nothing when no band contains it. -/
def getKeyRange (ranges : List ((ℚ × ℚ) × String)) (v : ℚ) : Option String :=
  (ranges.find? (fun r => decide (r.1.1 ≤ v) && decide (v < r.1.2))).map (fun r => r.2)

/-- Embeds `parseFloat(x.toFixed(2))` on an exact rational: rounding to two
decimal places, ties to the larger value (ECMA-262 toFixed step 10). -/
def round2 (q : ℚ) : ℚ := (⌊q * 100 + 1 / 2⌋ : ℤ) / 100

/-- Embeds `fpToGrade` (helpers.js lines 94-96) on an already-numeric
argument: `getKeyRange(fprange, parseFloat(parseFloat(finalPercent).toFixed(2)))`. -/
def fpToGrade (finalPercent : ℚ) : Option String :=
  getKeyRange fprange (round2 finalPercent)

/-! ### Assignment extraction from the class page -/

/-- One `tr` of the assignments table: the `innerText` of its `td` cells in
document order, and whether the row contains the
`img[src="/images/icon_missing.gif"]` element. -/
structure PageRow where
  cells : List String
  hasMissingIcon : Bool
deriving DecidableEq, Repr

/-- The class-page root as `assignments` reads it: the `tr` rows of the
single `table[align=center]`. -/
structure PageNode where
  tableRows : List PageRow
deriving DecidableEq, Repr

/-- One iteration of the `forEach` body of `assignments` (helpers.js lines
169-176): `new Assignment(curr[2]?.innerText || "", curr[curr.length - 1]?.innerText || "", i)`
followed by `addStatus(MISSING)` when the missing icon is present.
`addStatus` is modelled from the spec (the `Assignment` model class is not
part of the given source): it adds the flag to the status set. -/
def mkAssignment (e : PageRow) (i : ℕ) : Assignment :=
  let curr := e.cells
  let assignment : Assignment := ⟨(curr[2]?).getD "", (curr.getLast?).getD "", i, []⟩
  if e.hasMissingIcon then
    { assignment with statuses := assignment.statuses ++ [.MISSING] }
  else assignment

/-- The `forEach` loop of `assignments`, pushing one `Assignment` per row
with the running index. -/
def assignmentsLoop : List PageRow → ℕ → List Assignment
  | [], _ => []
  | e :: rest, i => mkAssignment e i :: assignmentsLoop rest (i + 1)

/-- Embeds `assignments` (helpers.js lines 166-178): rows of the centered
table, `.slice(1, -1)` (drop the header and legend rows), then the
`forEach` push loop. -/
def assignments (node : PageNode) : List Assignment :=
  assignmentsLoop ((node.tableRows.drop 1).dropLast) 0

/-- Claim-side restatement of `assignments` on the data rows alone: the
i-th data row yields the Assignment with order `i`, name from the 3rd
cell, score from the last cell, and MISSING exactly when the icon is in
the row. -/
def assignmentsSpec (data : List PageRow) : List Assignment :=
  data.enum.map (fun p =>
    { name := (p.2.cells[2]?).getD ""
      score := (p.2.cells.getLast?).getD ""
      order := p.1
      statuses := if p.2.hasMissingIcon then [.MISSING] else [] })

/-! ### JavaScript number semantics for `extractFinalPercent`

The final-percent path manipulates values that can be `NaN` or
`±Infinity`, so its numbers are modelled by `JsNum`; the finite values
are exact rationals (the tokens involved are short decimal literals, on
which double and rational arithmetic agree). -/

/-- Embeds `Math.max` on two arguments: `NaN` if either argument is `NaN`,
otherwise the larger with `-Infinity` at the bottom and `Infinity` at the
top. -/
def jsMax : JsNum → JsNum → JsNum
  | .nan, _ => .nan
  | _, .nan => .nan
  | .negInf, b => b
  | a, .negInf => a
  | .posInf, _ => .posInf
  | _, .posInf => .posInf
  | .num x, .num y => .num (max x y)

/-- The WhiteSpace and LineTerminator code points stripped by JavaScript
string-to-number coercion (restricted to the ASCII ones, which are the
only ones reachable from the page templates modelled here). -/
def isJsWhitespace (c : Char) : Bool :=
  c == ' ' || c == '\t' || c == '\n' || c == '\r' || c == '\x0b' || c == '\x0c'

/-- Decimal digit run to its numeric value. -/
def digitsToNat (ds : List Char) : ℕ :=
  ds.foldl (fun n c => 10 * n + (c.toNat - 48)) 0

/-- Optional leading sign of a numeric literal; returns the sign factor and
the remaining input. -/
def parseSign : List Char → ℚ × List Char
  | '+' :: cs => (1, cs)
  | '-' :: cs => (-1, cs)
  | cs => (1, cs)

/-- ExponentPart after the `e`/`E` mark: optional sign then at least one
digit; `none` (mark not consumed) when no digit follows. -/
def parseExpTail (cs : List Char) : Option (ℤ × List Char) :=
  let signAndRest : ℤ × List Char :=
    match cs with
    | '+' :: r => (1, r)
    | '-' :: r => (-1, r)
    | r => (1, r)
  let ds := signAndRest.2.takeWhile Char.isDigit
  if ds.isEmpty then none
  else some (signAndRest.1 * digitsToNat ds, signAndRest.2.drop ds.length)

/-- Longest prefix of the input that is an unsigned StrDecimalLiteral
(`digits [. digits] [exp]` or `. digits [exp]`): its value and the
remaining input; `none` when no digit is present before the exponent. -/
def parseDecimalLit (cs : List Char) : Option (ℚ × List Char) :=
  let intDs := cs.takeWhile Char.isDigit
  let afterInt := cs.drop intDs.length
  let fracDs : List Char :=
    match afterInt with
    | '.' :: r => r.takeWhile Char.isDigit
    | _ => []
  let afterFrac : List Char :=
    match afterInt with
    | '.' :: r => r.drop (r.takeWhile Char.isDigit).length
    | _ => afterInt
  if intDs.isEmpty && fracDs.isEmpty then none
  else
    let base : ℚ := digitsToNat intDs + digitsToNat fracDs / (10 : ℚ) ^ fracDs.length
    match afterFrac with
    | 'e' :: rest =>
      match parseExpTail rest with
      | some (e, rem) => some (base * (10 : ℚ) ^ e, rem)
      | none => some (base, afterFrac)
    | 'E' :: rest =>
      match parseExpTail rest with
      | some (e, rem) => some (base * (10 : ℚ) ^ e, rem)
      | none => some (base, afterFrac)
    | _ => some (base, afterFrac)

/-- Embeds the global `parseFloat`: skip leading whitespace, optional sign,
then `Infinity` or the longest StrDecimalLiteral prefix; `NaN` when no
digits were found. -/
def js_parseFloat (s : String) : JsNum :=
  let cs := s.toList.dropWhile isJsWhitespace
  let sg := parseSign cs
  if "Infinity".toList.isPrefixOf sg.2 then
    (if sg.1 = -1 then .negInf else .posInf)
  else
    match parseDecimalLit sg.2 with
    | some v => .num (sg.1 * v.1)
    | none => .nan

/-- Hexadecimal digit test. -/
def isHexDigit (c : Char) : Bool :=
  c.isDigit || ('a' ≤ c && c ≤ 'f') || ('A' ≤ c && c ≤ 'F')

/-- Hexadecimal digit run to its numeric value. -/
def hexToNat (ds : List Char) : ℕ :=
  ds.foldl (fun n c =>
    16 * n + (if c.isDigit then c.toNat - 48
              else if 'a' ≤ c then c.toNat - 87
              else c.toNat - 55)) 0

/-- Signed decimal StrDecimalLiteral that must consume the whole input,
used by string-to-number coercion. -/
def decimalFull (cs : List Char) : JsNum :=
  let sg := parseSign cs
  if sg.2 = "Infinity".toList then
    (if sg.1 = -1 then .negInf else .posInf)
  else
    match parseDecimalLit sg.2 with
    | some (v, []) => .num (sg.1 * v)
    | _ => .nan

/-- Embeds the `ToNumber` coercion of a string (as applied by the global
`isNaN`): trim whitespace, empty string is `0`, unsigned `0x`/`0o`/`0b`
literals, otherwise a signed decimal literal or `Infinity` consuming the
whole string; anything else is `NaN`. -/
def js_Number (s : String) : JsNum :=
  let cs := ((s.toList.dropWhile isJsWhitespace).reverse.dropWhile isJsWhitespace).reverse
  if cs.isEmpty then .num 0
  else
    match cs with
    | '0' :: c :: rest =>
      if c == 'x' || c == 'X' then
        (if !rest.isEmpty && rest.all isHexDigit then .num (hexToNat rest) else .nan)
      else if c == 'o' || c == 'O' then
        (if !rest.isEmpty && rest.all (fun d => '0' ≤ d && d ≤ '7') then
          .num (rest.foldl (fun n d => 8 * n + (d.toNat - 48)) 0) else .nan)
      else if c == 'b' || c == 'B' then
        (if !rest.isEmpty && rest.all (fun d => d == '0' || d == '1') then
          .num (rest.foldl (fun n d => 2 * n + (d.toNat - 48)) 0) else .nan)
      else decimalFull cs
    | _ => decimalFull cs

/-- Embeds the global `isNaN` on a string argument: whether `ToNumber`
yields `NaN`. -/
def js_isNaN (s : String) : Bool :=
  js_Number s = JsNum.nan

/-- Embeds `isNaN(t) ? -Infinity : parseFloat(t)` as applied by
`extractFinalPercent` to each of the last two tokens; the token is absent
(`undefined`) when the split produced too few tokens, and
`isNaN(undefined)` is `true`. -/
def parseTok : Option (List Char) → JsNum
  | none => .negInf
  | some t => if js_isNaN (String.mk t) then .negInf else js_parseFloat (String.mk t)

/-! ### The `document.write` marker scan -/

/-- The fixed text the lookahead of `/(?=document\.write).*/g` searches
for. -/
def docWriteMarker : List Char := "document.write".toList

/-- LineTerminator code points, which `.` does not match. -/
def isLineTerm (c : Char) : Bool :=
  c == '\n' || c == '\r' || c == '\u2028' || c == '\u2029'

/-- The suffix of the input starting at the first occurrence of
`document.write`, when there is one. -/
def findMarkerSuffix : List Char → Option (List Char)
  | [] => none
  | c :: cs =>
    if docWriteMarker.isPrefixOf (c :: cs) then some (c :: cs)
    else findMarkerSuffix cs

/-- Embeds the global match list of `/(?=document\.write).*/g`: each match
runs from an occurrence of `document.write` to the end of its line, and
the next search resumes after the matched text.  Each match consumes at
least the marker, so input length bounds the number of matches and serves
as fuel. -/
def docWriteScan : ℕ → List Char → List (List Char)
  | 0, _ => []
  | fuel + 1, cs =>
    match findMarkerSuffix cs with
    | none => []
    | some suf =>
      let line := suf.takeWhile (fun c => !isLineTerm c)
      line :: docWriteScan fuel (suf.drop line.length)

/-- The value of `html.match(/(?=document\.write).*/g)` as a list (empty
when the JavaScript call returns `null`). -/
def docWriteMatches (html : String) : List (List Char) :=
  docWriteScan (html.toList.length + 1) html.toList

/-- Embeds `/\[.*\]/g.exec(s)[0].slice(1, -1)`: the greedy leftmost match
runs from the first `[` to the last `]` after it, and `slice(1, -1)`
keeps the text between them; `none` when the pattern does not match (the
`exec` returns `null` and the subscript throws). -/
def bracketInner (line : List Char) : Option (List Char) :=
  match line.findIdx? (fun c => c == '[') with
  | none => none
  | some i =>
    match line.reverse.findIdx? (fun c => c == ']') with
    | none => none
    | some rj =>
      let j := line.length - 1 - rj
      if i < j then some ((line.drop (i + 1)).take (j - i - 1)) else none

/-- Embeds `current_string.split(";")` (never empty: splitting the empty
string yields one empty token, as in JavaScript). -/
def splitSemis (cs : List Char) : List (List Char) :=
  cs.splitOn ';'

/-- The tail of `extractFinalPercent` applied to one matched line: bracket
extraction, semicolon split, `Math.max` over the last two tokens, and the
`-Infinity` guard.  `temp[temp.length - 2]` is `undefined` when only one
token exists (a JavaScript `[-1]` subscript). -/
def processMatch : Option (List Char) → Option JsNum
  | none => none
  | some current_string =>
    match bracketInner current_string with
    | none => none
    | some inner =>
      let temp := splitSemis inner
      let prevTok : Option (List Char) :=
        if 2 ≤ temp.length then temp[temp.length - 2]? else none
      let lastTok : Option (List Char) := temp[temp.length - 1]?
      let number := jsMax (parseTok prevTok) (parseTok lastTok)
      if number = .negInf then none else some number

/-- Embeds `extractFinalPercent` (helpers.js lines 145-159).  The `try`
block indexes `[1]` into the match list — the second match — and every
failure path (no second match, no bracketed text) is caught and becomes
`undefined`, here `none`; the final `-Infinity` check also yields
`undefined`. -/
def extractFinalPercent (html : String) : Option JsNum :=
  processMatch (docWriteMatches html)[1]?

/-- Claim-side view of the data `extractFinalPercent` works on: the
semicolon-separated token list of the bracketed text at the page-template
marker (as the code locates it). -/
def markerTokens (html : String) : Option (List (List Char)) :=
  ((docWriteMatches html)[1]?.bind bracketInner).map splitSemis

/-- Claim-side maximum of the last two tokens of a token list, each parsed
as a float with non-numeric tokens treated as `-Infinity`. -/
def maxLastTwo (toks : List (List Char)) : JsNum :=
  jsMax (parseTok (if 2 ≤ toks.length then toks[toks.length - 2]? else none))
    (parseTok toks[toks.length - 1]?)

/-! ### Local storage -/

/-- A value under one key of the storage capability: a per-user record of
serialized courses, or the `most_recent_user` string. -/
inductive StorageVal where
  | record (courses : List Course)
  | uname (s : String)
deriving DecidableEq, Repr

/-- The browser local-storage capability as a key-value store; later
entries shadow earlier ones. -/
def Storage : Type := List (String × StorageVal)

/-- Key-value read of the storage capability. -/
def storageGet (st : Storage) (k : String) : Option StorageVal :=
  List.lookup k st

/-- Key-value write of the storage capability. -/
def storageSet (st : Storage) (k : String) (v : StorageVal) : Storage :=
  (k, v) :: st

/-- Modelled from the spec: `Course.prototype.toObject` (the `Course` model
class is not part of the given source) serializes a course to its stored
record carrying name, link, grade, finalPercent and assignments.  The
record has the same shape as the entity, so serialization is the identity
on the modelled fields. -/
def Course.toObject (c : Course) : Course := c

/-- The error a JavaScript evaluation can throw in the modelled fragment. -/
inductive JsError where
  | referenceError
deriving DecidableEq, Repr

/-- Embeds `saveGradesLocally` (helpers.js lines 205-214): serialize each
course, then write `USERDATA_<username>` and `most_recent_user` in one
`browser.storage.local.set` call. -/
def saveGradesLocally (username : String) (courses : List Course) (st : Storage) : Storage :=
  let course_list := courses.map Course.toObject
  storageSet (storageSet st ("USERDATA_" ++ username) (.record course_list))
    "most_recent_user" (.uname username)

/-- Embeds `getSavedGrades` (helpers.js lines 186-197).  Line 188 reads the
record into `course_list`, but line 189 immediately reads the identifier
`output`, which is declared nowhere in the module, so in strict-mode
JavaScript every call throws a `ReferenceError` before anything else
happens. -/
def getSavedGrades (username : String) (st : Storage) : Except JsError (List Course) :=
  let _course_list := storageGet st ("USERDATA_" ++ username)
  Except.error JsError.referenceError

end Saspes

/-! ## Theorems -/

namespace Saspes

set_option maxRecDepth 100000

/-- The loop of `calculate_gpa` computes, relative to any starting
accumulator, the claim-side denominator and the fold of the per-course
contributions. -/
theorem foldl_gpaStep (courses : List Course) (a : ℚ) (s : JsNum) :
    courses.foldl gpaStep (a, s) =
      (a + gpaDenominator courses,
       ((courses.filter (fun c => isNotMinusOne (gradeToGPA c.grade))).map
         gpaContribution).foldl jsAdd s) := by
  induction courses generalizing a s with
  | nil => simp [gpaDenominator]
  | cons c cs ih =>
    by_cases h : isNotMinusOne (gradeToGPA c.grade)
    · simp only [gpaStep, gpaDenominator, List.filter_cons, h, ih,
        List.foldl_cons, ite_true, List.map_cons, List.sum_cons, Prod.mk.injEq]
      refine ⟨by ring, ?_⟩
      trivial
    · simp only [gpaStep, gpaDenominator, List.filter_cons, h, ih,
        List.foldl_cons, ite_false, Bool.false_eq_true, Prod.mk.injEq]

/-- Closed form of `calculate_gpa`: the zero-denominator guard and the
formatted JavaScript quotient of the claim-side numerator and
denominator. -/
theorem calculate_gpa_eq (courses : List Course) :
    calculate_gpa courses =
      if gpaDenominator courses = 0 then "0.00"
      else toFixed2Js (jsDiv (gpaNumerator courses) (gpaDenominator courses)) := by
  have h := foldl_gpaStep courses 0 (JsNum.num 0)
  simp [calculate_gpa, h, gpaNumerator]

/-- Claim C1: `calculate_gpa` accumulates, over exactly the courses
passing the `gradeToGPA(grade) !== -1` test, the credit-hour weight into
a denominator and weight times (GPA + boost) into a numerator; it
returns "0.00" when the denominator is 0 and the `toFixed(2)` formatting
of the quotient otherwise; in particular the empty list gives "0.00", a
lone "Algebra I"/A gives "4.00", a lone "AP Calc"/A gives "4.50", and a
list in which every grade is unrecognized (maps to the -1 sentinel)
gives "0.00". -/
theorem claim_C1 (courses : List Course) :
    (calculate_gpa courses =
      if gpaDenominator courses = 0 then "0.00"
      else toFixed2Js (jsDiv (gpaNumerator courses) (gpaDenominator courses))) ∧
    calculate_gpa [] = "0.00" ∧
    calculate_gpa [⟨"Algebra I", "", "A", none, []⟩] = "4.00" ∧
    calculate_gpa [⟨"AP Calc", "", "A", none, []⟩] = "4.50" ∧
    ((∀ c ∈ courses, gradeToGPA c.grade = .num (-1)) → calculate_gpa courses = "0.00") := by
  refine ⟨calculate_gpa_eq courses, by with_unfolding_all decide,
    by with_unfolding_all decide, by with_unfolding_all decide, ?_⟩
  intro hall
  rw [calculate_gpa_eq courses]
  have hni : isNotMinusOne (TableValue.num (-1)) = false := by
    with_unfolding_all decide
  have hden : gpaDenominator courses = 0 := by
    induction courses with
    | nil => simp [gpaDenominator]
    | cons c cs ih =>
      have hc := hall c (List.mem_cons_self c cs)
      simp only [gpaDenominator, List.filter_cons, hc, hni]
      simpa [gpaDenominator] using ih (fun d hd => hall d (List.mem_cons_of_mem c hd))
  rw [if_pos hden]

/-- Witness for C1: a one-course list whose grade "Z" is unrecognized
yields "0.00". -/
theorem claim_C1_witness :
    calculate_gpa [⟨"X", "", "Z", none, []⟩] = "0.00" :=
  (claim_C1 [⟨"X", "", "Z", none, []⟩]).2.2.2.2 (by with_unfolding_all decide)

/-- Fidelity check of the prototype-chain path through `calculate_gpa`: a
course whose grade is "toString" passes the `!== -1` test, so its
inherited table value poisons the sum with `NaN` and the loop's result is
formatted as "NaN", as in the source. -/
theorem calculate_gpa_inherited_example :
    calculate_gpa [⟨"X", "", "toString", none, []⟩] = "NaN" := by
  with_unfolding_all decide

/-- The non-failing part of the contract of the grade tables: every
string that is neither a canonical grade nor an `Object.prototype`
member name maps to the -1 sentinel under both conversions. -/
theorem gradeTables_default_minus_one (s : String)
    (hs : s ∉ avaliableGrades) (hp : s ∉ objectPrototypeKeys) :
    gradeToGPA s = .num (-1) ∧ gradeToFP s = .num (-1) := by
  simp [avaliableGrades] at hs
  obtain ⟨h1, h2, h3, h4, h5, h6, h7, h8, h9⟩ := hs
  constructor <;>
    simp [gradeToGPA, gradeToFP, grade_gpa, grade_fp, List.lookup, hp,
      beq_eq_false_iff_ne.mpr h1, beq_eq_false_iff_ne.mpr h2, beq_eq_false_iff_ne.mpr h3,
      beq_eq_false_iff_ne.mpr h4, beq_eq_false_iff_ne.mpr h5, beq_eq_false_iff_ne.mpr h6,
      beq_eq_false_iff_ne.mpr h7, beq_eq_false_iff_ne.mpr h8, beq_eq_false_iff_ne.mpr h9]

/-- Claim C2 (refuted by the code, supporting the code-bug verdict): the
9 canonical letter grades do map to their tabulated values, but the
"-1 for every other input string" half is false of the program: the `in`
test walks the prototype chain, so `Object.prototype` member names such
as "toString", "valueOf", "hasOwnProperty" and "__proto__" return the
inherited member — not a number, and not the -1 the claim (and the
functions' own `@returns number` JSDoc) promises. -/
theorem claim_C2 :
    (gradeToGPA "A+" = .num 4.5 ∧ gradeToGPA "A" = .num 4 ∧ gradeToGPA "B+" = .num 3.5 ∧
     gradeToGPA "B" = .num 3 ∧ gradeToGPA "C+" = .num 2.5 ∧ gradeToGPA "C" = .num 2 ∧
     gradeToGPA "D+" = .num 1.5 ∧ gradeToGPA "D" = .num 1 ∧ gradeToGPA "F" = .num 0) ∧
    (gradeToFP "A+" = .num 90 ∧ gradeToFP "A" = .num 80 ∧ gradeToFP "B+" = .num 70 ∧
     gradeToFP "B" = .num 60 ∧ gradeToFP "C+" = .num 50 ∧ gradeToFP "C" = .num 40 ∧
     gradeToFP "D+" = .num 30 ∧ gradeToFP "D" = .num 20 ∧ gradeToFP "F" = .num 10) ∧
    (gradeToGPA "" = .num (-1) ∧ gradeToFP "" = .num (-1) ∧
     gradeToGPA "a+" = .num (-1) ∧ gradeToFP "a+" = .num (-1) ∧
     gradeToGPA "A++" = .num (-1) ∧ gradeToFP "A++" = .num (-1)) ∧
    (gradeToGPA "toString" = .inherited ∧ gradeToGPA "toString" ≠ .num (-1) ∧
     gradeToFP "toString" = .inherited ∧ gradeToFP "toString" ≠ .num (-1) ∧
     gradeToGPA "valueOf" = .inherited ∧ gradeToGPA "hasOwnProperty" = .inherited ∧
     gradeToGPA "__proto__" = .inherited) := by
  refine ⟨by with_unfolding_all decide, by with_unfolding_all decide,
    by with_unfolding_all decide, by with_unfolding_all decide⟩

/-- Claim C3 (refuted by the code, supporting the code-bug verdict): a
save followed by a read does not round-trip — `getSavedGrades` throws a
`ReferenceError` on its undeclared identifier `output` for every
username, course list and starting store, instead of returning the
courses just saved. -/
theorem claim_C3 (username : String) (courses : List Course) (st : Storage) :
    getSavedGrades username (saveGradesLocally username courses st) =
      Except.error JsError.referenceError := rfl

/-- Claim C4 (refuted by the code, supporting the code-bug verdict):
`getSavedGrades` throws a `ReferenceError` on every input — in particular
when the store holds no record for the username it does not return an
empty sequence. -/
theorem claim_C4 (username : String) (st : Storage) :
    getSavedGrades username st = Except.error JsError.referenceError := rfl

/-- Claim C5: `extractFinalPercent` returns the `Math.max` of the last two
semicolon-separated tokens of the bracketed list at the page-template
marker — each token contributing `-Infinity` when `isNaN` holds of it and
its `parseFloat` value otherwise — and returns absent when the marker
pattern or bracketed list is not found or that maximum is `-Infinity`
(the try/catch makes every failure path return absent rather than throw);
in particular a page without the marker gives absent and a well-formed
embedded list ending in `;85;90` gives 90. -/
theorem claim_C5 (html : String) :
    (extractFinalPercent html =
      match markerTokens html with
      | none => none
      | some toks =>
        if maxLastTwo toks = JsNum.negInf then none else some (maxLastTwo toks)) ∧
    extractFinalPercent "<html><body>No data here</body></html>" = none ∧
    extractFinalPercent "<script>document.write(a);\ndocument.write(ps[1;2;85;90]);\n</script>" =
      some (JsNum.num 90) := by
  refine ⟨?_, by with_unfolding_all decide, by with_unfolding_all decide⟩
  cases h1 : (docWriteMatches html)[1]? with
  | none => simp [extractFinalPercent, processMatch, markerTokens, h1]
  | some line =>
    cases h2 : bracketInner line with
    | none => simp [extractFinalPercent, processMatch, markerTokens, h1, h2]
    | some inner =>
      simp [extractFinalPercent, processMatch, markerTokens, maxLastTwo, h1, h2]

/-- Claim C6: the course boost is 0 whenever the code's comparison
`gradeToGPA(grade) < 1.8` holds (in particular for unrecognized grades,
whose lookup is the -1 sentinel), 0.5 for AP/AT-prefixed course names
otherwise, and 0 in all remaining cases; with the three concrete
examples from the spec, and the prototype-chain case: a grade such as
"toString" makes the comparison a false `NaN` comparison, so an AP name
still gets the 0.5 boost, as in the source. -/
theorem claim_C6 :
    (∀ n g : String, tvLt (gradeToGPA g) 1.8 = true → course_boost n g = 0) ∧
    (∀ n g : String, gradeToGPA g = .num (-1) → course_boost n g = 0) ∧
    (∀ n g : String, tvLt (gradeToGPA g) 1.8 = false →
      (n.startsWith "AP " ∨ n.startsWith "AT ") → course_boost n g = 0.5) ∧
    (∀ n g : String, tvLt (gradeToGPA g) 1.8 = false →
      ¬ (n.startsWith "AP " ∨ n.startsWith "AT ") → course_boost n g = 0) ∧
    course_boost "AP Calculus" "A" = 0.5 ∧
    course_boost "AP Calculus" "D" = 0 ∧
    course_boost "Calculus" "A" = 0 ∧
    course_boost "AP Calculus" "toString" = 0.5 := by
  refine ⟨?_, ?_, ?_, ?_, by with_unfolding_all decide,
    by with_unfolding_all decide, by with_unfolding_all decide,
    by with_unfolding_all decide⟩
  · intro n g h
    simp [course_boost, h]
  · intro n g h
    have hlt : tvLt (gradeToGPA g) 1.8 = true := by
      rw [h]
      with_unfolding_all decide
    simp [course_boost, hlt]
  · intro n g h hp
    simp only [course_boost, h, Bool.false_eq_true, if_false]
    have hb : (n.startsWith "AP " || n.startsWith "AT ") = true := by
      rcases hp with hp | hp <;> simp [hp]
    simp [hb]
  · intro n g h hp
    simp only [course_boost, h, Bool.false_eq_true, if_false]
    have hb : (n.startsWith "AP " || n.startsWith "AT ") = false := by
      push_neg at hp
      simp [hp.1, hp.2]
    simp [hb]

/-- Witness for C6: an AT course with a B grade (GPA 3.0, not below 1.8)
gets the 0.5 boost. -/
theorem claim_C6_witness :
    course_boost "AT Physics" "B" = 0.5 :=
  claim_C6.2.2.1 "AT Physics" "B" (by with_unfolding_all decide)
    (Or.inr (by with_unfolding_all decide))

/-- Claim C7: credit hours are 2 for the two exact double-credit course
names, 0.5 for names starting with "I Service: " or "IS: ", and 1 for
every other name. -/
theorem claim_C7 :
    (∀ n : String,
      (n = "English 10/American History" ∨ n = "English 9/World History") →
        calculate_credit_hours n = 2) ∧
    (∀ n : String, (n.startsWith "I Service: " ∨ n.startsWith "IS: ") →
        calculate_credit_hours n = 0.5) ∧
    (∀ n : String,
      ¬ (n = "English 10/American History" ∨ n = "English 9/World History") →
      ¬ (n.startsWith "I Service: " ∨ n.startsWith "IS: ") →
        calculate_credit_hours n = 1) := by
  refine ⟨?_, ?_, ?_⟩
  · rintro n (rfl | rfl) <;> with_unfolding_all decide
  · intro n h
    have hne1 : n ≠ "English 10/American History" := by
      rintro rfl
      rcases h with h | h <;> revert h <;> with_unfolding_all decide
    have hne2 : n ≠ "English 9/World History" := by
      rintro rfl
      rcases h with h | h <;> revert h <;> with_unfolding_all decide
    have hsw : (n.startsWith "I Service: " || n.startsWith "IS: ") = true := by
      rcases h with h | h <;> simp [h]
    have hcon : (["English 10/American History", "English 9/World History"].contains n) = false := by
      simp only [List.contains, List.elem_eq_mem, decide_eq_false_iff_not, List.mem_cons,
        List.not_mem_nil, or_false, not_or]
      exact ⟨hne1, hne2⟩
    simp only [calculate_credit_hours]
    rw [hcon]
    simp [hsw]
  · intro n hnd hsw
    push_neg at hnd hsw
    have hcon : (["English 10/American History", "English 9/World History"].contains n) = false := by
      simp only [List.contains, List.elem_eq_mem, decide_eq_false_iff_not, List.mem_cons,
        List.not_mem_nil, or_false, not_or]
      exact ⟨hnd.1, hnd.2⟩
    have h1 : n.startsWith "I Service: " = false := by simpa using hsw.1
    have h2 : n.startsWith "IS: " = false := by simpa using hsw.2
    simp only [calculate_credit_hours]
    rw [hcon]
    simp [h1, h2]

/-- Witness for C7: an "IS: " course carries half a credit hour. -/
theorem claim_C7_witness :
    calculate_credit_hours "IS: Biology" = 0.5 :=
  claim_C7.2.1 "IS: Biology" (Or.inr (by with_unfolding_all decide))

/-- Claim C8: `fpToGrade` looks the 2-decimal rounding of its input up in
the band table; any grade it returns is the letter of a band `[lo, hi)`
containing the rounded value; the nine bands cover `[0, 90)`; and 87 maps
to "A+" and 42 to "C". -/
theorem claim_C8 :
    (∀ q : ℚ, fpToGrade q = getKeyRange fprange (round2 q)) ∧
    (∀ q g, fpToGrade q = some g →
      ∃ lo hi, ((lo, hi), g) ∈ fprange ∧ lo ≤ round2 q ∧ round2 q < hi) ∧
    (∀ v : ℚ, 0 ≤ v → v < 90 → (getKeyRange fprange v).isSome) ∧
    fpToGrade 87 = some "A+" ∧ fpToGrade 42 = some "C" := by
  refine ⟨fun q => rfl, ?_, ?_, by with_unfolding_all decide, by with_unfolding_all decide⟩
  · intro q g h
    simp only [fpToGrade, getKeyRange, Option.map_eq_some'] at h
    obtain ⟨⟨⟨lo, hi⟩, g2⟩, hfind, hg⟩ := h
    have hp := List.find?_some hfind
    have hmem := List.mem_of_find?_eq_some hfind
    simp only [Bool.and_eq_true, decide_eq_true_eq] at hp
    subst hg
    exact ⟨lo, hi, hmem, hp.1, hp.2⟩
  · intro v h0 h90
    rw [getKeyRange, Option.isSome_map', List.find?_isSome]
    by_cases c1 : 85 ≤ v
    · exact ⟨((85, 90), "A+"), by simp [fprange], by simp; constructor <;> [exact c1; exact h90]⟩
    · push_neg at c1
      by_cases c2 : 75 ≤ v
      · exact ⟨((75, 85), "A"), by simp [fprange], by simp; constructor <;> [exact c2; exact c1]⟩
      · push_neg at c2
        by_cases c3 : 65 ≤ v
        · exact ⟨((65, 75), "B+"), by simp [fprange], by simp; constructor <;> [exact c3; exact c2]⟩
        · push_neg at c3
          by_cases c4 : 55 ≤ v
          · exact ⟨((55, 65), "B"), by simp [fprange], by simp; constructor <;> [exact c4; exact c3]⟩
          · push_neg at c4
            by_cases c5 : 45 ≤ v
            · exact ⟨((45, 55), "C+"), by simp [fprange], by simp; constructor <;> [exact c5; exact c4]⟩
            · push_neg at c5
              by_cases c6 : 35 ≤ v
              · exact ⟨((35, 45), "C"), by simp [fprange], by simp; constructor <;> [exact c6; exact c5]⟩
              · push_neg at c6
                by_cases c7 : 25 ≤ v
                · exact ⟨((25, 35), "D+"), by simp [fprange], by simp; constructor <;> [exact c7; exact c6]⟩
                · push_neg at c7
                  by_cases c8 : 15 ≤ v
                  · exact ⟨((15, 25), "D"), by simp [fprange], by simp; constructor <;> [exact c8; exact c7]⟩
                  · push_neg at c8
                    exact ⟨((0, 15), "F"), by simp [fprange], by simp; constructor <;> [exact h0; exact c8]⟩

/-- Witness for C8: 87 lies in a band, so the band lookup succeeds there. -/
theorem claim_C8_witness :
    (getKeyRange fprange 87).isSome :=
  claim_C8.2.2.1 87 (by with_unfolding_all decide) (by with_unfolding_all decide)

/-- One loop iteration of `assignments` builds exactly the record the
claim describes. -/
theorem mkAssignment_eq (e : PageRow) (i : ℕ) :
    mkAssignment e i =
      { name := (e.cells[2]?).getD "", score := (e.cells.getLast?).getD "",
        order := i, statuses := if e.hasMissingIcon then [.MISSING] else [] } := by
  by_cases h : e.hasMissingIcon <;> simp [mkAssignment, h]

/-- The `forEach` loop of `assignments` is the indexed map over the data
rows, for any starting index. -/
theorem assignmentsLoop_eq (rows : List PageRow) (i : ℕ) :
    assignmentsLoop rows i = (rows.enumFrom i).map (fun p =>
      { name := (p.2.cells[2]?).getD "", score := (p.2.cells.getLast?).getD "",
        order := p.1, statuses := if p.2.hasMissingIcon then [.MISSING] else [] }) := by
  induction rows generalizing i with
  | nil => simp [assignmentsLoop]
  | cons e rest ih => simp [assignmentsLoop, List.enumFrom_cons, mkAssignment_eq, ih]

/-- Claim C9: on a table of a header row, data rows and a legend row,
`assignments` returns one Assignment per data row in row order, with
order fields 0, 1, ..., name from the 3rd cell (empty when missing),
score from the last cell (empty when missing), and the MISSING flag
exactly when the row holds the missing-icon image. -/
theorem claim_C9 (header legend : PageRow) (data : List PageRow) :
    assignments ⟨header :: (data ++ [legend])⟩ = assignmentsSpec data ∧
    (assignments ⟨header :: (data ++ [legend])⟩).length = data.length := by
  have hslice : (((header :: (data ++ [legend])).drop 1).dropLast) = data := by
    simp
  constructor
  · rw [assignments, hslice, assignmentsSpec, assignmentsLoop_eq, List.enum]
  · rw [assignments, hslice, assignmentsLoop_eq]
    simp [List.enumFrom_length]

/-- Claim C10: `extractFinalPercent` reads index 1 of the match list — the
second `document.write` match — so whenever the html yields fewer than
two matches it returns absent, even when a single first match carries a
well-formed bracketed numeric list. -/
theorem claim_C10 (html : String) :
    extractFinalPercent html = processMatch (docWriteMatches html)[1]? ∧
    ((docWriteMatches html).length < 2 → extractFinalPercent html = none) ∧
    extractFinalPercent "document.write(ps[1;2;85;90]);" = none ∧
    (docWriteMatches "document.write(ps[1;2;85;90]);").length = 1 := by
  refine ⟨rfl, ?_, by with_unfolding_all decide, by with_unfolding_all decide⟩
  intro h
  have : (docWriteMatches html)[1]? = none := by
    apply List.getElem?_eq_none
    omega
  simp [extractFinalPercent, this, processMatch]

/-- Witness for C10: a page with no marker at all has fewer than two
matches and yields absent. -/
theorem claim_C10_witness :
    extractFinalPercent "x" = none :=
  (claim_C10 "x").2.1 (by with_unfolding_all decide)

end Saspes
